import Mathlib

/-!
Shallow embedding of `src/heart_app.py` (Heart Disease Risk Predictor).

The script collects 13 clinical fields through form widgets, encodes the
categorical ones by position in fixed label lists, builds a dict, reorders
its columns by the model bundle's feature-name list, applies a pre-fit
scaler, asks the classifier for the positive-class probability and compares
it to the fixed threshold 0.40.

Numbers are embedded as rationals (the comparisons in the script are exact
comparisons of its numeric values).  The serialized classifier and scaler
are opaque artifacts loaded from disk; they are embedded as structures whose
data the script only reads: the scaler as its stored per-feature fit
parameters, the classifier as an opaque two-class probability estimator.
-/

namespace HeartApp

/-- Ordered label list of the chest-pain selectbox (lines 84–92). -/
def cpLabels : List String :=
  ["Typical Angina (highest risk)", "Atypical Angina", "Non-anginal Pain", "No Symptoms"]

/-- Ordered label list of the resting-ECG selectbox (lines 116–119). -/
def restecgLabels : List String :=
  ["Normal", "ST-T abnormality", "Left ventricular hypertrophy"]

/-- Ordered label list of the ST-slope selectbox (line 130). -/
def slopeLabels : List String := ["Upsloping", "Flat", "Downsloping"]

/-- Ordered label list of the thalassemia selectbox (lines 146–149). -/
def thalLabels : List String := ["Normal", "Fixed Defect", "Reversible Defect"]

/-- Option list of the major-vessels selectbox (line 143). -/
def caOptions : List ℕ := [0, 1, 2, 3]

/-- Encoding of the chest-pain label: `[...].index(cp_label)` (lines 93–98). -/
def cp_code (label : String) : ℕ := cpLabels.indexOf label

/-- Encoding of the resting-ECG label: `[...].index(restecg_label)` (line 120). -/
def restecg_code (label : String) : ℕ := restecgLabels.indexOf label

/-- Encoding of the ST-slope label: `[...].index(slope_label)` (line 131). -/
def slope_code (label : String) : ℕ := slopeLabels.indexOf label

/-- Encoding of the thalassemia label: `[...].index(thal_label) + 1` (line 150). -/
def thal_code (label : String) : ℕ := thalLabels.indexOf label + 1

/-- Encoding of biological sex: `1 if sex == "Male" else 0` (line 81). -/
def sex_code (label : String) : ℕ := if label = "Male" then 1 else 0

/-- Encoding of the fasting-blood-sugar radio: `1 if fbs == "Yes" else 0` (line 113). -/
def fbs_code (label : String) : ℕ := if label = "Yes" then 1 else 0

/-- Encoding of the exercise-angina radio: `1 if exang == "Yes" else 0` (line 126). -/
def exang_code (label : String) : ℕ := if label = "Yes" then 1 else 0

/-- The selections made on the form.  Sliders yield a number (streamlit keeps
it inside the slider's bounds, stated as hypotheses where needed); a radio or
selectbox yields one of its listed options, embedded as an index into the
ordered option list. -/
structure FormState where
  age : ℕ
  sexSel : Fin 2
  cpSel : Fin 4
  trestbps : ℕ
  chol : ℕ
  fbsSel : Fin 2
  restecgSel : Fin 3
  thalach : ℕ
  exangSel : Fin 2
  oldpeak : ℚ
  slopeSel : Fin 3
  caSel : Fin 4
  thalSel : Fin 3

/-- The label the sex radio returns for a given selection (line 80). -/
def sexChoice (i : Fin 2) : String := (["Male", "Female"].get i)

/-- The label a yes/no radio returns for a given selection (lines 112, 125). -/
def yesNoChoice (i : Fin 2) : String := (["No", "Yes"].get i)

/-- The `input_data` dict built from the form values (lines 159–173), with
each value computed exactly as the script computes it from the widgets. -/
def input_data (s : FormState) : List (String × ℚ) :=
  [ ("age", (s.age : ℚ)),
    ("sex", (sex_code (sexChoice s.sexSel) : ℚ)),
    ("cp", (cp_code (cpLabels.get s.cpSel) : ℚ)),
    ("trestbps", (s.trestbps : ℚ)),
    ("chol", (s.chol : ℚ)),
    ("fbs", (fbs_code (yesNoChoice s.fbsSel) : ℚ)),
    ("restecg", (restecg_code (restecgLabels.get s.restecgSel) : ℚ)),
    ("thalach", (s.thalach : ℚ)),
    ("exang", (exang_code (yesNoChoice s.exangSel) : ℚ)),
    ("oldpeak", s.oldpeak),
    ("slope", (slope_code (slopeLabels.get s.slopeSel) : ℚ)),
    ("ca", (caOptions.get s.caSel : ℚ)),
    ("thal", (thal_code (thalLabels.get s.thalSel) : ℚ)) ]

/-- The 13 field names of a clinical record, in the dict's order. -/
def recordKeys : List String :=
  ["age", "sex", "cp", "trestbps", "chol", "fbs", "restecg",
   "thalach", "exang", "oldpeak", "slope", "ca", "thal"]

/-- Terminal failures of one assessment, per the error taxonomy: the column
selection fails on a feature name absent from the record, the scaler or
classifier rejects the input shape. -/
inductive AssessError where
  | schemaMismatch (missing : String)
  | inferenceError
  deriving DecidableEq, Repr

/-- Column selection `pd.DataFrame([input_data])[feature_names]` (line 175):
pick, in feature-name order, the record's value for each name; a name absent
from the record is an error (pandas raises a KeyError), never a default. -/
def selectColumns (names : List String) (rec : List (String × ℚ)) :
    Except AssessError (List ℚ) :=
  match names with
  | [] => .ok []
  | n :: ns =>
    match rec.lookup n with
    | none => .error (.schemaMismatch n)
    | some v =>
      match selectColumns ns rec with
      | .error e => .error e
      | .ok vs => .ok (v :: vs)

/-- The pre-fit scaler artifact: its stored per-feature fit parameters
(`heart_scaler.pkl`, loaded at line 54 and only ever read). -/
structure Scaler where
  mean : List ℚ
  scale : List ℚ

/-- `scaler.transform(input_df)` (line 176): standardize each column with the
stored fit parameters; a row whose width differs from the fitted width is
rejected (sklearn raises), and the scaler itself is not re-fit. -/
def Scaler.transform (sc : Scaler) (row : List ℚ) : Except AssessError (List ℚ) :=
  if row.length = sc.mean.length ∧ row.length = sc.scale.length then
    .ok (List.zipWith (fun v ms => (v - ms.1) / ms.2) row (sc.mean.zip sc.scale))
  else
    .error .inferenceError

/-- The pre-trained classifier artifact, opaque: a two-class probability
estimator.  `predict_proba` on one row yields the class-probability vector;
the stored invariants say it is a probability distribution over the two
classes (length two, nonnegative, summing to one). -/
structure Classifier where
  predict_proba : List ℚ → List ℚ
  proba_length : ∀ x, (predict_proba x).length = 2
  proba_nonneg : ∀ x, ∀ p ∈ predict_proba x, 0 ≤ p
  proba_sum : ∀ x, (predict_proba x).sum = 1

/-- The model bundle `heart_xgboost_model.pkl` (line 53): the classifier and
its ordered feature-name list, `model_bundle["model"]` and
`model_bundle["features"]` (line 55). -/
structure ModelBundle where
  model : Classifier
  features : List String

/-- The outcome of one assessment: the positive-class probability, the
binary label, the threshold used, and the entered data echoed back for the
audit display (`st.json(input_data)`, line 216). -/
structure AssessmentResult where
  probability : ℚ
  is_high_risk : Bool
  thresholdUsed : ℚ
  echoed : List (String × ℚ)

/-- The decision threshold, `threshold = 0.40` (line 180). -/
def threshold : ℚ := 0.40

/-- Lines 175–176: the record's single row put into feature order and then
scaled, `input_scaled = scaler.transform(pd.DataFrame([input_data])[feature_names])`;
either step's failure propagates. -/
def input_scaled (bundle : ModelBundle) (scaler : Scaler)
    (rec : List (String × ℚ)) : Except AssessError (List ℚ) :=
  match selectColumns bundle.features rec with
  | .error e => .error e
  | .ok input_df => scaler.transform input_df

/-- One assessment (lines 175–182) with the threshold as a parameter: build
the single-row table in feature order, scale it, take the probability mass
of class 1 (`predict_proba(input_scaled)[0][1]`, line 179) and compare it to
the threshold (`is_high_risk = proba >= threshold`, line 182). -/
def assessWith (bundle : ModelBundle) (scaler : Scaler) (t : ℚ)
    (rec : List (String × ℚ)) : Except AssessError AssessmentResult :=
  match input_scaled bundle scaler rec with
  | .error e => .error e
  | .ok row =>
    let proba := (bundle.model.predict_proba row).getD 1 0
    .ok { probability := proba,
          is_high_risk := decide (proba ≥ t),
          thresholdUsed := t,
          echoed := rec }

/-- One assessment as the script runs it, at the fixed threshold 0.40. -/
def assess (bundle : ModelBundle) (scaler : Scaler) (rec : List (String × ℚ)) :
    Except AssessError AssessmentResult :=
  assessWith bundle scaler threshold rec

/-- The process-wide state the script holds across assessments: the loaded
model bundle and scaler (line 57). -/
structure AppState where
  bundle : ModelBundle
  scaler : Scaler

/-- One assessment with the shared state threaded explicitly: the script
performs no write to the loaded artifacts, so the state passes through. -/
def assessSt (st : AppState) (rec : List (String × ℚ)) :
    Except AssessError (AssessmentResult × AppState) :=
  match assess st.bundle st.scaler rec with
  | .error e => .error e
  | .ok r => .ok (r, st)

/-! Helper lemmas about the pipeline. -/

/-- Inversion of a successful assessment: it went through column selection
and scaling, and every field of the result is determined by the scaled row. -/
theorem assessWith_ok_elim {bundle : ModelBundle} {scaler : Scaler} {t : ℚ}
    {rec : List (String × ℚ)} {res : AssessmentResult}
    (h : assessWith bundle scaler t rec = .ok res) :
    ∃ row, input_scaled bundle scaler rec = .ok row ∧
      res.probability = (bundle.model.predict_proba row).getD 1 0 ∧
      res.is_high_risk = decide (res.probability ≥ t) ∧
      res.thresholdUsed = t ∧
      res.echoed = rec := by
  unfold assessWith at h
  cases hrow : input_scaled bundle scaler rec with
  | error e => rw [hrow] at h; cases h
  | ok row =>
    rw [hrow] at h
    simp only [Except.ok.injEq] at h
    refine ⟨row, rfl, ?_, ?_, ?_, ?_⟩ <;> rw [← h]

/-- Selected columns are one value per requested feature name. -/
theorem selectColumns_ok_length {names : List String} {rec : List (String × ℚ)}
    {vs : List ℚ} (h : selectColumns names rec = .ok vs) :
    vs.length = names.length := by
  induction names generalizing vs with
  | nil => unfold selectColumns at h; simp only [Except.ok.injEq] at h; simp [← h]
  | cons n ns ih =>
    unfold selectColumns at h
    cases hl : rec.lookup n with
    | none => rw [hl] at h; cases h
    | some v =>
      rw [hl] at h
      cases hrest : selectColumns ns rec with
      | error e => rw [hrest] at h; cases h
      | ok ws =>
        rw [hrest] at h
        simp only [Except.ok.injEq] at h
        simp [← h, ih hrest]

/-- When every requested feature name is present, column selection succeeds. -/
theorem selectColumns_total {names : List String} {rec : List (String × ℚ)}
    (h : ∀ n ∈ names, (rec.lookup n).isSome) :
    ∃ vs, selectColumns names rec = .ok vs := by
  induction names with
  | nil => exact ⟨[], rfl⟩
  | cons n ns ih =>
    have hn := h n (List.mem_cons_self n ns)
    cases hl : rec.lookup n with
    | none => rw [hl] at hn; cases hn
    | some v =>
      obtain ⟨vs, hvs⟩ := ih fun m hm => h m (List.mem_cons_of_mem n hm)
      exact ⟨v :: vs, by unfold selectColumns; rw [hl, hvs]⟩

/-- When some requested feature name is absent, column selection fails with
a schema mismatch naming an absent feature. -/
theorem selectColumns_missing {names : List String} {rec : List (String × ℚ)}
    {n : String} (hn : n ∈ names) (habs : rec.lookup n = none) :
    ∃ m, rec.lookup m = none ∧
      selectColumns names rec = .error (.schemaMismatch m) := by
  induction names with
  | nil => cases hn
  | cons k ks ih =>
    by_cases hk : rec.lookup k = none
    · exact ⟨k, hk, by unfold selectColumns; rw [hk]⟩
    · obtain ⟨v, hv⟩ := Option.ne_none_iff_exists'.mp hk
      have hnk : n ∈ ks := by
        rcases List.mem_cons.mp hn with h | h
        · rw [h] at habs; rw [habs] at hv; cases hv
        · exact h
      obtain ⟨m, hm, hsel⟩ := ih hnk
      exact ⟨m, hm, by unfold selectColumns; rw [hv, hsel]⟩

/-- Lookup in an association list with distinct keys is stable under
permutation of its entries. -/
theorem lookup_perm {rec rec' : List (String × ℚ)} (hperm : rec.Perm rec')
    (hnd : (rec.map Prod.fst).Nodup) (a : String) :
    rec.lookup a = rec'.lookup a := by
  induction hperm with
  | nil => rfl
  | cons p hp ih =>
    obtain ⟨k, v⟩ := p
    simp only [List.map_cons, List.nodup_cons] at hnd
    cases hak : (a == k) <;> simp [List.lookup_cons, hak, ih hnd.2]
  | swap p q l =>
    obtain ⟨k₁, v₁⟩ := p
    obtain ⟨k₂, v₂⟩ := q
    simp only [List.map_cons, List.nodup_cons, List.mem_cons] at hnd
    have hqp : k₂ ≠ k₁ := fun h => hnd.1 (Or.inl h)
    cases haq : (a == k₂) <;> cases hap : (a == k₁) <;>
        simp only [List.lookup_cons, haq, hap]
    exact absurd (eq_of_beq haq ▸ eq_of_beq hap) hqp
  | trans h₁ h₂ ih₁ ih₂ =>
    have hnd₂ := (h₁.map Prod.fst).nodup hnd
    rw [ih₁ hnd, ih₂ hnd₂]

/-- Column selection reads the record only through lookups, so it is stable
under permutation of a distinct-keyed record's entries. -/
theorem selectColumns_perm {names : List String} {rec rec' : List (String × ℚ)}
    (hperm : rec.Perm rec') (hnd : (rec.map Prod.fst).Nodup) :
    selectColumns names rec = selectColumns names rec' := by
  induction names with
  | nil => rfl
  | cons n ns ih =>
    unfold selectColumns
    rw [lookup_perm hperm hnd n, ih]

/-- A successfully scaled row keeps the width of its input row. -/
theorem transform_ok_length {sc : Scaler} {row out : List ℚ}
    (h : sc.transform row = .ok out) : out.length = row.length := by
  unfold Scaler.transform at h
  by_cases hc : row.length = sc.mean.length ∧ row.length = sc.scale.length
  · rw [if_pos hc] at h
    simp only [Except.ok.injEq] at h
    simp [← h, List.length_zipWith, List.length_zip, ← hc.1, ← hc.2]
  · rw [if_neg hc] at h; cases h

/-- The positive-class probability read off a classifier output lies in
the unit interval: the output has length two, nonnegative entries and
total mass one. -/
theorem predict_proba_getD_bounds (c : Classifier) (x : List ℚ) :
    0 ≤ (c.predict_proba x).getD 1 0 ∧ (c.predict_proba x).getD 1 0 ≤ 1 := by
  have hlen := c.proba_length x
  have hnn := c.proba_nonneg x
  have hsum := c.proba_sum x
  match hx : c.predict_proba x with
  | [a, b] =>
    rw [hx] at hnn hsum
    have ha : 0 ≤ a := hnn a (by simp)
    have hb : 0 ≤ b := hnn b (by simp)
    have hab : a + b = 1 := by simpa using hsum
    have hbv : ([a, b] : List ℚ).getD 1 0 = b := rfl
    rw [hbv]
    exact ⟨hb, by linarith⟩
  | [] => rw [hx] at hlen; cases hlen
  | [a] => rw [hx] at hlen; cases hlen
  | a :: b :: c' :: l => rw [hx] at hlen; simp at hlen

/-! Concrete artifacts used to exercise the pipeline on closed inputs. -/

/-- A concrete two-class probability estimator assigning mass 7/10 to the
positive class. -/
def demoClassifier : Classifier where
  predict_proba := fun _ => [3/10, 7/10]
  proba_length := fun _ => rfl
  proba_nonneg := by
    intro x p hp
    simp only [List.mem_cons, List.not_mem_nil, or_false] at hp
    rcases hp with h | h <;> rw [h] <;> norm_num
  proba_sum := by intro x; norm_num

/-- A concrete bundle expecting two features. -/
def demoBundle : ModelBundle := ⟨demoClassifier, ["trestbps", "age"]⟩

/-- A concrete fitted scaler for two features. -/
def demoScaler : Scaler := ⟨[0, 0], [1, 1]⟩

/-- A concrete record, keys in a different order than the feature list. -/
def demoRec : List (String × ℚ) := [("age", 63), ("trestbps", 145)]

/-- The record with its entries in the opposite order. -/
def demoRecSwapped : List (String × ℚ) := [("trestbps", 145), ("age", 63)]

/-- A concrete record that lacks the `trestbps` feature. -/
def demoRecMissing : List (String × ℚ) := [("age", 63)]

/-- The assessment the concrete artifacts produce at threshold 0.40. -/
def demoResult : AssessmentResult := ⟨7/10, true, threshold, demoRec⟩

/-- The assessment the concrete artifacts produce at threshold 0.90. -/
def demoResultHigherT : AssessmentResult := ⟨7/10, false, 0.90, demoRec⟩

/-- The process-wide state holding the concrete artifacts. -/
def demoState : AppState := ⟨demoBundle, demoScaler⟩

theorem demo_assess_eq : assess demoBundle demoScaler demoRec = .ok demoResult := by
  simp [assess, assessWith, input_scaled, selectColumns, Scaler.transform, demoBundle,
    demoScaler, demoRec, demoClassifier, demoResult, threshold, List.lookup]
  norm_num

theorem demo_assess_higherT_eq :
    assessWith demoBundle demoScaler 0.90 demoRec = .ok demoResultHigherT := by
  simp [assessWith, input_scaled, selectColumns, Scaler.transform, demoBundle,
    demoScaler, demoRec, demoClassifier, demoResultHigherT, List.lookup]
  norm_num

theorem demo_assessSt_eq : assessSt demoState demoRec = .ok (demoResult, demoState) := by
  simp [assessSt, demoState, demo_assess_eq]

/-! Claims. -/

/-- C1: for every assessed record, the binary label satisfies
`is_high_risk = (probability ≥ 0.40)`, and the boundary is inclusive: a
probability of exactly 0.40 is classified as high risk. -/
theorem assess_highRisk_iff_prob_ge (bundle : ModelBundle) (scaler : Scaler)
    (rec : List (String × ℚ)) (res : AssessmentResult)
    (h : assess bundle scaler rec = .ok res) :
    (res.is_high_risk = true ↔ res.probability ≥ 0.40) ∧
      (res.probability = 0.40 → res.is_high_risk = true) := by
  obtain ⟨row, -, -, hhr, -, -⟩ := assessWith_ok_elim h
  rw [show threshold = (0.40 : ℚ) from rfl] at hhr
  constructor
  · rw [hhr]; exact decide_eq_true_iff
  · intro hp
    rw [hhr, hp]
    exact decide_eq_true (by norm_num)

theorem assess_highRisk_iff_prob_ge_witness :
    assess demoBundle demoScaler demoRec = .ok demoResult ∧
      ((demoResult.is_high_risk = true ↔ demoResult.probability ≥ 0.40) ∧
        (demoResult.probability = 0.40 → demoResult.is_high_risk = true)) :=
  ⟨demo_assess_eq,
    assess_highRisk_iff_prob_ge demoBundle demoScaler demoRec demoResult demo_assess_eq⟩

/-- C2: the thalassemia encoding is `index_of(label, thalLabels) + 1`, so every
selected label yields exactly Normal→1, Fixed Defect→2, Reversible Defect→3:
codes 1–3, never 0. -/
theorem thal_encoding :
    thal_code "Normal" = 1 ∧ thal_code "Fixed Defect" = 2 ∧
      thal_code "Reversible Defect" = 3 ∧
      ∀ i : Fin 3, thal_code (thalLabels.get i) =
          thalLabels.indexOf (thalLabels.get i) + 1 ∧
        1 ≤ thal_code (thalLabels.get i) ∧ thal_code (thalLabels.get i) ≤ 3 := by
  decide

/-- C3: the chest-pain encoding is the total, deterministic 0-based position
in the fixed ordered label list: Typical Angina (highest risk)→0, Atypical
Angina→1, Non-anginal Pain→2, No Symptoms→3, and every listed label maps to
its own index. -/
theorem cp_encoding :
    cp_code "Typical Angina (highest risk)" = 0 ∧ cp_code "Atypical Angina" = 1 ∧
      cp_code "Non-anginal Pain" = 2 ∧ cp_code "No Symptoms" = 3 ∧
      ∀ i : Fin 4, cp_code (cpLabels.get i) = (i : ℕ) := by
  decide

/-- C4: a feature name the bundle expects but the record lacks makes the
assessment fail with a schema-mismatch error naming an absent feature; no
value is imputed and no result is produced. -/
theorem assess_missing_feature_fails (bundle : ModelBundle) (scaler : Scaler)
    (rec : List (String × ℚ)) (n : String)
    (hn : n ∈ bundle.features) (habs : rec.lookup n = none) :
    ∃ m, rec.lookup m = none ∧
      assess bundle scaler rec = .error (.schemaMismatch m) := by
  obtain ⟨m, hm, hsel⟩ := selectColumns_missing hn habs
  exact ⟨m, hm, by unfold assess assessWith input_scaled; rw [hsel]⟩

theorem assess_missing_feature_fails_witness :
    "trestbps" ∈ demoBundle.features ∧ demoRecMissing.lookup "trestbps" = none ∧
      ∃ m, demoRecMissing.lookup m = none ∧
        assess demoBundle demoScaler demoRecMissing = .error (.schemaMismatch m) :=
  ⟨by decide, by decide,
    assess_missing_feature_fails demoBundle demoScaler demoRecMissing "trestbps"
      (by decide) (by decide)⟩

/-- C5: when the record's keys include every feature name, the column
selection followed by scaling succeeds with a vector of dimensionality
`bundle.features.length`, and the selected-and-scaled result is the same for
any reordering of the record's entries (distinct keys). -/
theorem selection_dimension_and_perm (bundle : ModelBundle) (scaler : Scaler)
    (rec rec' : List (String × ℚ))
    (hall : ∀ n ∈ bundle.features, (rec.lookup n).isSome)
    (hperm : rec.Perm rec') (hnd : (rec.map Prod.fst).Nodup)
    (hm : scaler.mean.length = bundle.features.length)
    (hs : scaler.scale.length = bundle.features.length) :
    (∃ row, input_scaled bundle scaler rec = .ok row ∧
        row.length = bundle.features.length) ∧
      input_scaled bundle scaler rec = input_scaled bundle scaler rec' := by
  obtain ⟨vs, hvs⟩ := selectColumns_total hall
  have hlen := selectColumns_ok_length hvs
  have hcond : vs.length = scaler.mean.length ∧ vs.length = scaler.scale.length :=
    ⟨by rw [hlen, hm], by rw [hlen, hs]⟩
  obtain ⟨out, hout⟩ : ∃ out, scaler.transform vs = .ok out :=
    ⟨_, by unfold Scaler.transform; rw [if_pos hcond]⟩
  refine ⟨⟨out, ?_, ?_⟩, ?_⟩
  · unfold input_scaled; rw [hvs]; exact hout
  · rw [transform_ok_length hout, hlen]
  · unfold input_scaled; rw [selectColumns_perm hperm hnd]

theorem selection_dimension_and_perm_witness :
    (∀ n ∈ demoBundle.features, (demoRec.lookup n).isSome) ∧
      demoRec.Perm demoRecSwapped ∧ (demoRec.map Prod.fst).Nodup ∧
      demoScaler.mean.length = demoBundle.features.length ∧
      demoScaler.scale.length = demoBundle.features.length ∧
      ((∃ row, input_scaled demoBundle demoScaler demoRec = .ok row ∧
          row.length = demoBundle.features.length) ∧
        input_scaled demoBundle demoScaler demoRec =
          input_scaled demoBundle demoScaler demoRecSwapped) :=
  ⟨by decide, List.Perm.swap _ _ _, by decide, rfl, rfl,
    selection_dimension_and_perm demoBundle demoScaler demoRec demoRecSwapped
      (by decide) (List.Perm.swap _ _ _) (by decide) rfl rfl⟩

/-- C6: every successful assessment returns a probability inside the unit
interval, it being the mass the two-class classifier assigns to the
positive class at index 1 of its output. -/
theorem assess_probability_in_unit_interval (bundle : ModelBundle)
    (scaler : Scaler) (rec : List (String × ℚ)) (res : AssessmentResult)
    (h : assess bundle scaler rec = .ok res) :
    0 ≤ res.probability ∧ res.probability ≤ 1 := by
  obtain ⟨row, -, hp, -, -, -⟩ := assessWith_ok_elim h
  rw [hp]
  exact predict_proba_getD_bounds bundle.model row

theorem assess_probability_in_unit_interval_witness :
    assess demoBundle demoScaler demoRec = .ok demoResult ∧
      0 ≤ demoResult.probability ∧ demoResult.probability ≤ 1 :=
  ⟨demo_assess_eq,
    assess_probability_in_unit_interval demoBundle demoScaler demoRec demoResult
      demo_assess_eq⟩

/-- C7: two runs on the same record and artifacts that differ only in the
threshold compute the same probability (and echo the same data); only the
binary label can differ. -/
theorem probability_independent_of_threshold (bundle : ModelBundle)
    (scaler : Scaler) (t₁ t₂ : ℚ) (rec : List (String × ℚ))
    (res₁ res₂ : AssessmentResult)
    (h₁ : assessWith bundle scaler t₁ rec = .ok res₁)
    (h₂ : assessWith bundle scaler t₂ rec = .ok res₂) :
    res₁.probability = res₂.probability ∧ res₁.echoed = res₂.echoed := by
  obtain ⟨row₁, hr₁, hp₁, -, -, he₁⟩ := assessWith_ok_elim h₁
  obtain ⟨row₂, hr₂, hp₂, -, -, he₂⟩ := assessWith_ok_elim h₂
  rw [hr₁] at hr₂
  injection hr₂ with e
  constructor
  · rw [hp₁, hp₂, e]
  · rw [he₁, he₂]

theorem probability_independent_of_threshold_witness :
    assessWith demoBundle demoScaler threshold demoRec = .ok demoResult ∧
      assessWith demoBundle demoScaler 0.90 demoRec = .ok demoResultHigherT ∧
      demoResult.probability = demoResultHigherT.probability ∧
      demoResult.echoed = demoResultHigherT.echoed :=
  ⟨demo_assess_eq, demo_assess_higherT_eq,
    probability_independent_of_threshold demoBundle demoScaler threshold 0.90
      demoRec demoResult demoResultHigherT demo_assess_eq demo_assess_higherT_eq⟩

/-- C8: an assessment threads the loaded artifacts through unchanged: the
scaler is applied by its transform with its stored fit parameters only, and
neither the bundle nor the scaler held in the process state is mutated. -/
theorem assessSt_preserves_artifacts (st : AppState) (rec : List (String × ℚ))
    (res : AssessmentResult) (st' : AppState)
    (h : assessSt st rec = .ok (res, st')) :
    st'.bundle = st.bundle ∧ st'.scaler = st.scaler := by
  unfold assessSt at h
  cases ha : assess st.bundle st.scaler rec with
  | error e => rw [ha] at h; cases h
  | ok r =>
    rw [ha] at h
    simp only [Except.ok.injEq, Prod.mk.injEq] at h
    rw [← h.2]
    exact ⟨rfl, rfl⟩

theorem assessSt_preserves_artifacts_witness :
    assessSt demoState demoRec = .ok (demoResult, demoState) ∧
      demoState.bundle = demoState.bundle ∧ demoState.scaler = demoState.scaler :=
  ⟨demo_assessSt_eq,
    assessSt_preserves_artifacts demoState demoRec demoResult demoState
      demo_assessSt_eq⟩

/-- C9: a successful assessment echoes the submitted record back unchanged
for the audit display. -/
theorem assess_echoes_input (bundle : ModelBundle) (scaler : Scaler)
    (rec : List (String × ℚ)) (res : AssessmentResult)
    (h : assess bundle scaler rec = .ok res) :
    res.echoed = rec := by
  obtain ⟨row, -, -, -, -, he⟩ := assessWith_ok_elim h
  exact he

theorem assess_echoes_input_witness :
    assess demoBundle demoScaler demoRec = .ok demoResult ∧
      demoResult.echoed = demoRec :=
  ⟨demo_assess_eq,
    assess_echoes_input demoBundle demoScaler demoRec demoResult demo_assess_eq⟩

/-! Ranges of the encoded categorical fields, per widget option. -/

theorem sex_code_cases : ∀ i : Fin 2,
    sex_code (sexChoice i) = 0 ∨ sex_code (sexChoice i) = 1 := by decide

theorem fbs_code_cases : ∀ i : Fin 2,
    fbs_code (yesNoChoice i) = 0 ∨ fbs_code (yesNoChoice i) = 1 := by decide

theorem exang_code_cases : ∀ i : Fin 2,
    exang_code (yesNoChoice i) = 0 ∨ exang_code (yesNoChoice i) = 1 := by decide

theorem cp_code_cases : ∀ i : Fin 4,
    cp_code (cpLabels.get i) = 0 ∨ cp_code (cpLabels.get i) = 1 ∨
      cp_code (cpLabels.get i) = 2 ∨ cp_code (cpLabels.get i) = 3 := by decide

theorem restecg_code_cases : ∀ i : Fin 3,
    restecg_code (restecgLabels.get i) = 0 ∨ restecg_code (restecgLabels.get i) = 1 ∨
      restecg_code (restecgLabels.get i) = 2 := by decide

theorem slope_code_cases : ∀ i : Fin 3,
    slope_code (slopeLabels.get i) = 0 ∨ slope_code (slopeLabels.get i) = 1 ∨
      slope_code (slopeLabels.get i) = 2 := by decide

theorem ca_option_cases : ∀ i : Fin 4,
    caOptions.get i = 0 ∨ caOptions.get i = 1 ∨
      caOptions.get i = 2 ∨ caOptions.get i = 3 := by decide

theorem thal_code_cases : ∀ i : Fin 3,
    thal_code (thalLabels.get i) = 1 ∨ thal_code (thalLabels.get i) = 2 ∨
      thal_code (thalLabels.get i) = 3 := by decide

/-- The ClinicalRecord invariant from the data model: exactly the 13 named
fields, each numeric value within its declared range and each encoded
categorical value among its legal codes. -/
def ClinicalRecordInvariant (rec : List (String × ℚ)) : Prop :=
  rec.map Prod.fst = recordKeys ∧
  (∃ v, rec.lookup "age" = some v ∧ 20 ≤ v ∧ v ≤ 100) ∧
  (∃ v, rec.lookup "sex" = some v ∧ (v = 0 ∨ v = 1)) ∧
  (∃ v, rec.lookup "cp" = some v ∧ (v = 0 ∨ v = 1 ∨ v = 2 ∨ v = 3)) ∧
  (∃ v, rec.lookup "trestbps" = some v ∧ 90 ≤ v ∧ v ≤ 200) ∧
  (∃ v, rec.lookup "chol" = some v ∧ 100 ≤ v ∧ v ≤ 600) ∧
  (∃ v, rec.lookup "fbs" = some v ∧ (v = 0 ∨ v = 1)) ∧
  (∃ v, rec.lookup "restecg" = some v ∧ (v = 0 ∨ v = 1 ∨ v = 2)) ∧
  (∃ v, rec.lookup "thalach" = some v ∧ 60 ≤ v ∧ v ≤ 220) ∧
  (∃ v, rec.lookup "exang" = some v ∧ (v = 0 ∨ v = 1)) ∧
  (∃ v, rec.lookup "oldpeak" = some v ∧ 0 ≤ v ∧ v ≤ 6.5) ∧
  (∃ v, rec.lookup "slope" = some v ∧ (v = 0 ∨ v = 1 ∨ v = 2)) ∧
  (∃ v, rec.lookup "ca" = some v ∧ (v = 0 ∨ v = 1 ∨ v = 2 ∨ v = 3)) ∧
  (∃ v, rec.lookup "thal" = some v ∧ (v = 1 ∨ v = 2 ∨ v = 3))

/-- C10: every record the form constructs satisfies the ClinicalRecord
range invariant by construction, the sliders' outputs lying within their
declared bounds and the widget selections producing only legal codes. -/
theorem form_record_invariant (s : FormState)
    (hage : 20 ≤ s.age ∧ s.age ≤ 100)
    (htrestbps : 90 ≤ s.trestbps ∧ s.trestbps ≤ 200)
    (hchol : 100 ≤ s.chol ∧ s.chol ≤ 600)
    (hthalach : 60 ≤ s.thalach ∧ s.thalach ≤ 220)
    (holdpeak : 0 ≤ s.oldpeak ∧ s.oldpeak ≤ 6.5) :
    ClinicalRecordInvariant (input_data s) := by
  refine ⟨by simp [input_data, recordKeys], ?_, ?_, ?_, ?_, ?_, ?_, ?_, ?_, ?_,
    ?_, ?_, ?_, ?_⟩
  · exact ⟨(s.age : ℚ), by simp [input_data, List.lookup],
      by exact_mod_cast hage.1, by exact_mod_cast hage.2⟩
  · refine ⟨(sex_code (sexChoice s.sexSel) : ℚ),
      by simp [input_data, List.lookup], ?_⟩
    rcases sex_code_cases s.sexSel with h | h <;> rw [h] <;> norm_num
  · refine ⟨(cp_code (cpLabels.get s.cpSel) : ℚ),
      by simp [input_data, List.lookup], ?_⟩
    rcases cp_code_cases s.cpSel with h | h | h | h <;> rw [h] <;> norm_num
  · exact ⟨(s.trestbps : ℚ), by simp [input_data, List.lookup],
      by exact_mod_cast htrestbps.1, by exact_mod_cast htrestbps.2⟩
  · exact ⟨(s.chol : ℚ), by simp [input_data, List.lookup],
      by exact_mod_cast hchol.1, by exact_mod_cast hchol.2⟩
  · refine ⟨(fbs_code (yesNoChoice s.fbsSel) : ℚ),
      by simp [input_data, List.lookup], ?_⟩
    rcases fbs_code_cases s.fbsSel with h | h <;> rw [h] <;> norm_num
  · refine ⟨(restecg_code (restecgLabels.get s.restecgSel) : ℚ),
      by simp [input_data, List.lookup], ?_⟩
    rcases restecg_code_cases s.restecgSel with h | h | h <;> rw [h] <;> norm_num
  · exact ⟨(s.thalach : ℚ), by simp [input_data, List.lookup],
      by exact_mod_cast hthalach.1, by exact_mod_cast hthalach.2⟩
  · refine ⟨(exang_code (yesNoChoice s.exangSel) : ℚ),
      by simp [input_data, List.lookup], ?_⟩
    rcases exang_code_cases s.exangSel with h | h <;> rw [h] <;> norm_num
  · exact ⟨s.oldpeak, by simp [input_data, List.lookup], holdpeak.1, holdpeak.2⟩
  · refine ⟨(slope_code (slopeLabels.get s.slopeSel) : ℚ),
      by simp [input_data, List.lookup], ?_⟩
    rcases slope_code_cases s.slopeSel with h | h | h <;> rw [h] <;> norm_num
  · refine ⟨(caOptions.get s.caSel : ℚ),
      by simp [input_data, List.lookup], ?_⟩
    rcases ca_option_cases s.caSel with h | h | h | h <;> rw [h] <;> norm_num
  · refine ⟨(thal_code (thalLabels.get s.thalSel) : ℚ),
      by simp [input_data, List.lookup], ?_⟩
    rcases thal_code_cases s.thalSel with h | h | h <;> rw [h] <;> norm_num

/-- The form at its default positions (line 79: age 50; line 110: 120;
line 111: 200; line 122: 150; line 128: 1.0; first option elsewhere). -/
def demoForm : FormState :=
  ⟨50, 0, 0, 120, 200, 0, 0, 150, 0, 1, 0, 0, 0⟩

theorem form_record_invariant_witness :
    ((20 ≤ demoForm.age ∧ demoForm.age ≤ 100) ∧
      (90 ≤ demoForm.trestbps ∧ demoForm.trestbps ≤ 200) ∧
      (100 ≤ demoForm.chol ∧ demoForm.chol ≤ 600) ∧
      (60 ≤ demoForm.thalach ∧ demoForm.thalach ≤ 220) ∧
      (0 ≤ demoForm.oldpeak ∧ demoForm.oldpeak ≤ 6.5)) ∧
    ClinicalRecordInvariant (input_data demoForm) :=
  ⟨⟨by decide, by decide, by decide, by decide, by norm_num [demoForm]⟩,
    form_record_invariant demoForm (by decide) (by decide) (by decide)
      (by decide) (by norm_num [demoForm])⟩

end HeartApp
